import Mathlib

/-!
# Verification of the Signal-to-Site pipeline

Shallow embedding of the `signal_to_site` Python package: the data model
(`models.py`), the slug and copy generators (`page_generator.py`), the mock
enrichment client (`linkt_client.py`), the mock researcher (`researcher.py`),
the outreach template generator and email sender (`outreach.py`), and the
orchestrator (`pipeline.py`).  External effects (SMTP transport, timestamps)
are passed in as explicit parameters; duck-typed collaborators are modelled
as a record of functions, fallible stages returning `Except Unit`.
-/

namespace SignalToSite

/-- A contact dictionary (Python `dict` with string values under the keys the
code reads: `name`, `title`, `email`, `linkedin`).  A missing key is `none`. -/
structure Contact where
  name : Option String := none
  title : Option String := none
  email : Option String := none
  linkedin : Option String := none
deriving DecidableEq

/-- The `brand_colors` dictionary: keys `primary`, `secondary`,
`background_style`; a missing key is `none`. -/
structure BrandColors where
  primary : Option String := none
  secondary : Option String := none
  background_style : Option String := none
deriving DecidableEq

/-- `models.Company` (pydantic model), with the same fields and defaults. -/
structure Company where
  name : String
  domain : String
  description : Option String := none
  industry : Option String := none
  employee_count : Option String := none
  location : Option String := none
  linkedin_url : Option String := none
  signal_type : String
  signal_details : Option String := none
  value_props : List String := []
  pain_points : List String := []
  tone : Option String := none
  brand_colors : Option BrandColors := none
  customers : List String := []
  website_content : Option String := none
  screenshot_path : Option String := none
  founders : List Contact := []
  target_contact : Option Contact := none
deriving DecidableEq

/-- `models.Signal`.  `detected_at` (a wall-clock timestamp) is abstracted as
a natural number; `raw_data` is an opaque audit payload the pipeline never
reads, omitted from the embedding. -/
structure Signal where
  id : String
  type : String
  company_name : String
  company_domain : String
  details : String
  detected_at : Nat := 0
deriving DecidableEq

/-- `models.GeneratedPage`. -/
structure GeneratedPage where
  company : Company
  html_content : String
  slug : String
  deployed_url : Option String := none
  created_at : Nat := 0
deriving DecidableEq

/-- `models.OutreachDraft`. -/
structure OutreachDraft where
  company : Company
  email_subject : String
  email_body : String
  linkedin_message : Option String := none
  landing_page_url : Option String := none
deriving DecidableEq

/-- `pipeline.PipelineResult`. -/
structure PipelineResult where
  company : Company
  page : GeneratedPage
  outreach : OutreachDraft
  page_url : Option String := none
  email_sent : Bool := false
  notified : Bool := false
deriving DecidableEq

/-! ## Python string helpers -/

/-- Python truthiness-based `or` on an optional string: `x or d` falls back to
`d` when `x` is `None` or the empty string. -/
def pyOr (x : Option String) (d : String) : String :=
  match x with
  | some s => if s.isEmpty then d else s
  | none => d

/-- `domain.split(".")[0]`: the characters before the first dot (the whole
string when there is no dot). -/
def splitFirstDot (s : String) : String :=
  ⟨s.data.takeWhile (fun c => c ≠ '.')⟩

/-- Character-wise worker for Python `str.title()`: an alphabetic character
is uppercased when the previous character was not alphabetic, lowercased
otherwise; other characters pass through and reset the word boundary. -/
def pyTitleGo : List Char → Bool → List Char
  | [], _ => []
  | c :: rest, prevAlpha =>
    if c.isAlpha then
      (if prevAlpha then c.toLower else c.toUpper) :: pyTitleGo rest true
    else
      c :: pyTitleGo rest false

/-- Python `str.title()`. -/
def pyTitle (s : String) : String :=
  ⟨pyTitleGo s.data false⟩

/-- Python `str.replace(old, new)` for a one-character pattern and
replacement (the only shape the code uses: `.replace("-", " ")`): replace
every occurrence of the character. -/
def pyReplaceChar (pat rep : Char) (s : String) : String :=
  ⟨s.data.map (fun c => if c = pat then rep else c)⟩

/-! ## `page_generator._generate_slug` -/

/-- The character class `[a-z0-9]` of the slug regexes. -/
def isSlugAlnum (c : Char) : Bool :=
  ('a' ≤ c && c ≤ 'z') || ('0' ≤ c && c ≤ '9')

/-- Code points matched by the regex class `\s` in Python 3 (Unicode
whitespace): ASCII whitespace, the C1 separators, and the Unicode space
separators. -/
def pySpaceCodes : List Nat :=
  [9, 10, 11, 12, 13, 28, 29, 30, 31, 32, 133, 160, 5760,
   8192, 8193, 8194, 8195, 8196, 8197, 8198, 8199, 8200, 8201, 8202,
   8232, 8233, 8239, 8287, 12288]

/-- Whether a character is regex whitespace (`\s`). -/
def isPySpace (c : Char) : Bool :=
  c.toNat ∈ pySpaceCodes

/-- `re.sub(p+, rep, ·)` for a one-character class `p`: every maximal run of
characters matching `p` is replaced by the single character `rep`.  The
boolean flag records whether the previous character was part of a run. -/
def collapseRuns (p : Char → Bool) (rep : Char) : List Char → Bool → List Char
  | [], _ => []
  | c :: rest, prev =>
    if p c then
      if prev then collapseRuns p rep rest true
      else rep :: collapseRuns p rep rest true
    else c :: collapseRuns p rep rest false

/-- Python `str.strip(ch)` on a character list: remove matching characters
from both ends. -/
def pyStrip (p : Char → Bool) (l : List Char) : List Char :=
  ((l.dropWhile p).reverse.dropWhile p).reverse

/-- `PageGenerator._generate_slug`: lowercase, delete characters outside
`[a-z0-9\s-]`, collapse runs of `[\s_]` to a hyphen, collapse runs of
hyphens, strip hyphens from both ends.  (`str.lower()` is modelled
character-wise; any character the filter step would keep is unaffected.) -/
def generateSlug (company_name : String) : String :=
  let s1 := company_name.data.map Char.toLower
  let s2 := s1.filter (fun c => isSlugAlnum c || isPySpace c || c = '-')
  let s3 := collapseRuns (fun c => isPySpace c || c = '_') '-' s2 false
  let s4 := collapseRuns (fun c => c = '-') '-' s3 false
  ⟨pyStrip (fun c => c = '-') s4⟩

/-! ## `page_generator._generate_copy_template` -/

/-- One entry of the structured `pain_points` / `value_props` lists of the
copy dictionary: a title/description pair. -/
structure TitleDesc where
  title : String
  description : String
deriving DecidableEq

/-- The dictionary returned by `_generate_copy_template` / `_generate_copy`. -/
structure CopyBlock where
  headline : String
  subheadline : String
  pain_points : List TitleDesc
  value_props : List TitleDesc
  cta_text : String
  cta_action : String
deriving DecidableEq

/-- The constructor configuration of `PageGenerator` (template mode: no
OpenAI key, so `self.client is None` and copy comes from
`_generate_copy_template`). -/
structure PageGenerator where
  your_company_name : String
  your_value_prop : String
  cta_url : String := "https://calendly.com/your-link"
deriving DecidableEq

/-- The per-entry title transform of `_generate_copy_template`:
`s if len(s) < 50 else s[:47] + "..."`. -/
def truncTitle (s : String) : String :=
  if s.length < 50 then s else ⟨s.data.take 47⟩ ++ "..."

/-- The filler entry appended while fewer than 3 pain points exist. -/
def painFiller : TitleDesc :=
  { title := "Scaling efficiently",
    description := "Growth brings complexity. We help you manage it." }

/-- The filler entry appended while fewer than 3 value props exist. -/
def valueFiller : TitleDesc :=
  { title := "Proven results",
    description := "See measurable impact from day one." }

/-- `PageGenerator._generate_copy_template`. -/
def PageGenerator.generateCopyTemplate (pg : PageGenerator) (company : Company) :
    CopyBlock :=
  let headline :=
    if company.signal_type = "hiring" then
      "Scaling your " ++ pyOr company.signal_details "team" ++ "?"
    else if company.signal_type = "funding" then
      "Congratulations on the raise, " ++ company.name ++ "!"
    else
      "Built for teams like " ++ company.name
  let subheadline :=
    if company.signal_type = "hiring" then
      "We help companies like " ++ company.name ++ " build and scale faster with " ++
        pg.your_value_prop ++ "."
    else if company.signal_type = "funding" then
      "Smart companies use their runway wisely. " ++ pg.your_value_prop ++
        " helps you scale efficiently."
    else
      "See how " ++ pg.your_value_prop ++ " can help your team."
  let cta_action :=
    if company.signal_type = "hiring" then "accelerate your growth"
    else if company.signal_type = "funding" then "maximize your runway"
    else "see how we can help"
  let pain_points :=
    (company.pain_points.take 3).map (fun pain =>
      { title := truncTitle pain,
        description :=
          "We\x27ve seen this challenge at companies your size. Here\x27s how we help." })
  let pain_points := pain_points ++ List.replicate (3 - pain_points.length) painFiller
  let value_props :=
    (company.value_props.take 3).map (fun value =>
      { title := truncTitle value,
        description := "Proven results with teams like yours." })
  let value_props := value_props ++ List.replicate (3 - value_props.length) valueFiller
  { headline := headline, subheadline := subheadline,
    pain_points := pain_points, value_props := value_props,
    cta_text := "Book a Demo", cta_action := cta_action }

/-- Modelled from the spec: the HTML template renderer
(`templates/landing_page.html` rendered through Jinja2) is not under `src/`
and the spec treats it as an out-of-scope black box with defined inputs; it
is modelled as a total function of exactly the arguments
`PageGenerator.generate_page` passes to `template.render`. -/
def renderLandingPage (company_name : String) (copy : CopyBlock)
    (cta_url your_company_name : String) (year : Nat)
    (primary_color secondary_color background_style : String)
    (customers : List String) : String :=
  String.intercalate "|"
    ([company_name, copy.headline, copy.subheadline] ++
     (copy.pain_points.map TitleDesc.title) ++
     (copy.value_props.map TitleDesc.title) ++
     [copy.cta_text, copy.cta_action, cta_url, your_company_name,
      toString year, primary_color, secondary_color, background_style] ++
     customers)

/-- `PageGenerator.generate_page` in template mode.  The ambient clock
(`datetime.now()`) is passed in as `year` and `now`. -/
def PageGenerator.generate_page (pg : PageGenerator) (year now : Nat)
    (company : Company) : GeneratedPage :=
  let copy := pg.generateCopyTemplate company
  let brand := company.brand_colors
  let primary_color := (brand.bind BrandColors.primary).getD "#2563eb"
  let secondary_color := (brand.bind BrandColors.secondary).getD "#1e293b"
  let background_style := (brand.bind BrandColors.background_style).getD "light"
  let html := renderLandingPage company.name copy pg.cta_url pg.your_company_name
    year primary_color secondary_color background_style (company.customers.take 3)
  let slug := generateSlug company.name
  { company := company, html_content := html, slug := slug,
    deployed_url := none, created_at := now }

/-! ## `linkt_client.MockLinktClient` -/

/-- The three demo signals returned by `MockLinktClient.get_signals`. -/
def mockSignals (now : Nat) : List Signal :=
  [{ id := "sig_demo_001", type := "hiring", company_name := "TechStartup Inc",
     company_domain := "techstartup.io",
     details := "Posted job: Head of Marketing", detected_at := now },
   { id := "sig_demo_002", type := "hiring", company_name := "CloudScale AI",
     company_domain := "cloudscale.ai",
     details := "Posted job: First Sales Hire - Account Executive",
     detected_at := now },
   { id := "sig_demo_003", type := "funding", company_name := "DataFlow Labs",
     company_domain := "dataflowlabs.com",
     details := "Raised $5M Series A led by Sequoia", detected_at := now }]

/-- `MockLinktClient.get_signals`: filter by type when a (truthy) type is
given, then take at most `limit`. -/
def MockLinktClient.get_signals (now : Nat) (signal_type : Option String)
    (limit : Nat) : List Signal :=
  match signal_type with
  | some t =>
    if t.isEmpty then (mockSignals now).take limit
    else ((mockSignals now).filter (fun s => s.type = t)).take limit
  | none => (mockSignals now).take limit

/-- The four hard-coded enrichment profiles of `MockLinktClient.enrich_company`. -/
def mockEnrichData : List (String × Company) :=
  [("techstartup.io",
    { name := "TechStartup Inc", domain := "techstartup.io",
      description := some "AI-powered workflow automation for SMBs",
      industry := some "B2B SaaS", employee_count := some "20-50",
      location := some "Austin, TX",
      linkedin_url := some "https://linkedin.com/company/techstartup",
      signal_type := "hiring", signal_details := some "Hiring Head of Marketing",
      founders :=
        [{ name := some "Jane Smith", title := some "CEO",
           linkedin := some "https://linkedin.com/in/janesmith" },
         { name := some "John Doe", title := some "CTO",
           linkedin := some "https://linkedin.com/in/johndoe" }] }),
   ("cloudscale.ai",
    { name := "CloudScale AI", domain := "cloudscale.ai",
      description := some "Infrastructure optimization using machine learning",
      industry := some "DevOps / Infrastructure", employee_count := some "10-20",
      location := some "San Francisco, CA",
      linkedin_url := some "https://linkedin.com/company/cloudscale-ai",
      signal_type := "hiring", signal_details := some "First Sales Hire",
      founders :=
        [{ name := some "Alex Chen", title := some "CEO & Founder",
           linkedin := some "https://linkedin.com/in/alexchen" }] }),
   ("stripe.com",
    { name := "Stripe", domain := "stripe.com",
      description := some "Financial infrastructure for the internet",
      industry := some "FinTech / Payments", employee_count := some "5000+",
      location := some "San Francisco, CA",
      linkedin_url := some "https://linkedin.com/company/stripe",
      signal_type := "hiring", signal_details := some "Head of Sales",
      founders :=
        [{ name := some "Patrick Collison", title := some "CEO",
           linkedin := some "https://linkedin.com/in/patrickcollison" },
         { name := some "John Collison", title := some "President",
           linkedin := some "https://linkedin.com/in/johncollison" }] }),
   ("linear.app",
    { name := "Linear", domain := "linear.app",
      description := some
        "Linear is a better way to build products. Streamline issues, sprints, and product roadmaps.",
      industry := some "B2B SaaS / Developer Tools",
      employee_count := some "50-100", location := some "San Francisco, CA",
      linkedin_url := some "https://linkedin.com/company/linear",
      signal_type := "hiring", signal_details := some "Head of Sales",
      founders :=
        [{ name := some "Karri Saarinen", title := some "CEO",
           linkedin := some "https://linkedin.com/in/karrisaarinen" }] })]

/-- `MockLinktClient.enrich_company`: a known domain returns its hard-coded
profile; an unknown domain gets a basic profile whose name is derived from
the domain (part before the first dot, hyphens to spaces, title-cased). -/
def MockLinktClient.enrich_company (domain : String) : Company :=
  match (mockEnrichData.lookup domain) with
  | some c => c
  | none =>
    let company_name := pyTitle (pyReplaceChar '-' ' ' (splitFirstDot domain))
    { name := company_name, domain := domain,
      description := some (company_name ++ " - Technology company"),
      industry := some "Technology", signal_type := "custom" }

/-! ## `researcher.MockCompanyResearcher` -/

/-- `MockCompanyResearcher.research_company`: per-domain canned research for
the two demo domains, generic defaults otherwise; sets `value_props`,
`pain_points` and `tone` on the incoming company. -/
def MockCompanyResearcher.research_company (company : Company) : Company :=
  if company.domain = "techstartup.io" then
    { company with
      value_props :=
        ["Reduce manual workflow time by 80%",
         "Easy integration with existing tools",
         "AI-powered automation that learns from usage"],
      pain_points :=
        ["Building marketing team from scratch",
         "Need marketing automation and analytics",
         "Scaling customer acquisition efficiently"],
      tone := some "professional" }
  else if company.domain = "cloudscale.ai" then
    { company with
      value_props :=
        ["Cut cloud costs by 40% with ML optimization",
         "Auto-scaling that actually works",
         "DevOps team productivity boost"],
      pain_points :=
        ["First sales hire - building sales process",
         "Need CRM and sales enablement tools",
         "Scaling revenue without scaling headcount"],
      tone := some "technical" }
  else
    { company with
      value_props := ["Increase efficiency", "Save time", "Reduce costs"],
      pain_points := ["Scaling challenges", "Process automation", "Team productivity"],
      tone := some "professional" }

/-! ## `outreach.OutreachGenerator` (template mode) and `outreach.EmailSender` -/

/-- The constructor configuration of `OutreachGenerator` (template mode: no
OpenAI key, so `self.client is None` and `generate_outreach` delegates to
`_generate_outreach_template`). -/
structure OutreachGenerator where
  sender_name : String
  sender_title : String
  your_company_name : String
deriving DecidableEq

/-- `OutreachGenerator._generate_outreach_template`. -/
def OutreachGenerator.generateOutreachTemplate (og : OutreachGenerator)
    (company : Company) (landing_page_url : Option String) : OutreachDraft :=
  let target : Option Contact :=
    match company.target_contact with
    | some t => some t
    | none => company.founders.head?
  let target_name :=
    match target with
    | some t => t.name.getD "there"
    | none => "there"
  let subject :=
    if company.signal_type = "hiring" then
      "Re: " ++ company.name ++ "\x27s " ++ pyOr company.signal_details "new hire"
    else if company.signal_type = "funding" then
      "Congrats on the raise, " ++ company.name ++ "!"
    else
      "Quick question for " ++ company.name
  let opening :=
    if company.signal_type = "hiring" then
      "Noticed you\x27re hiring for " ++ pyOr company.signal_details "a key role" ++
        " - congrats on the growth!"
    else if company.signal_type = "funding" then
      "Saw the news about your recent funding round - exciting times!"
    else
      "I\x27ve been following " ++ company.name ++ "\x27s progress and had a quick thought."
  let page_link :=
    match landing_page_url with
    | some u =>
      if u.isEmpty then ""
      else "\n\nI put together a quick page with some ideas specifically for " ++
        company.name ++ ": " ++ u
    | none => ""
  let email_body :=
    "Hi " ++ target_name ++ ",\n\n" ++ opening ++ "\n\n" ++
    company.pain_points.headD "Scaling efficiently" ++
    " is something we help teams with at " ++ og.your_company_name ++ ". " ++
    (company.value_props.headD "We help companies like yours grow faster.") ++
    page_link ++
    "\n\nWould you be open to a quick 15-min chat to see if there\x27s a fit?\n\nBest,\n" ++
    og.sender_name ++ "\n" ++ og.sender_title ++ ", " ++ og.your_company_name
  let linkedin_message : String :=
    ⟨("Hi " ++ target_name ++ "! Saw " ++ company.name ++ " is " ++
      pyOr company.signal_details "growing" ++ ". We help similar companies with " ++
      company.pain_points.headD "scaling" ++ ". Would love to connect!").data.take 300⟩
  { company := company, email_subject := subject, email_body := email_body,
    linkedin_message := some linkedin_message,
    landing_page_url := landing_page_url }

/-- `EmailSender.send_email`: the whole body is wrapped in `try/except`; the
SMTP exchange (an external effect) is abstracted as an outcome parameter.  A
successful exchange returns `true`; any exception is swallowed and returns
`false`.  The function never raises. -/
def EmailSender.send_email (smtpOutcome : Except Unit Unit) : Bool :=
  match smtpOutcome with
  | .ok _ => true
  | .error _ => false

/-- `MockEmailSender.send_email`: logs and returns `True`. -/
def MockEmailSender.send_email (_to_email _subject _body : String) : Bool :=
  true

/-- Modelled from the spec: `deployer.py` is not under `src/`; per §4.2,
`deploy(page)` returns a dereferenceable URL string (local platform: a
filesystem-path URL for the saved page file). -/
def LocalDeployer.deploy_page (page : GeneratedPage) : String :=
  "file://output/" ++ page.slug ++ ".html"

/-- Modelled from the spec: `notifications.py` is not under `src/`; per §4.2
the notifier returns a boolean and only has side effects, and the mock
notifier of demo mode reports success. -/
def MockNotifier.send_pipeline_result (_company : Company)
    (_page : GeneratedPage) (_outreach : OutreachDraft) : Bool :=
  true

/-! ## `pipeline.SignalToSitePipeline`

The duck-typed collaborators handed to the pipeline constructor are modelled
as a record of functions.  Stages 2-6 of `_process_signal` (enrich, research,
generate page, deploy, outreach) sit inside the `try` block and may raise:
they return `Except Unit`.  The email sender and the notifier return plain
booleans: both sender implementations are total by construction
(`EmailSender.send_email` swallows every exception, `MockEmailSender` only
returns `True`), and per §4.2 a notifier returns a boolean.  Each embedding
of a pipeline operation additionally returns the ordered list of collaborator
calls it made, so that never-invoked claims are statable. -/

/-- One collaborator invocation made by the pipeline. -/
inductive Event where
  | getSignals (signal_type : Option String) (limit : Nat)
  | enrich (domain : String)
  | research
  | generatePage
  | deploy
  | outreach
  | sendEmail (to_email : String)
  | notify
deriving DecidableEq

/-- The collaborator bundle built by `SignalToSitePipeline.__init__`. -/
structure Collaborators where
  get_signals : Option String → Nat → List Signal
  enrich_company : String → Except Unit Company
  research_company : Company → Except Unit Company
  generate_page : Company → Except Unit GeneratedPage
  deploy_page : GeneratedPage → Except Unit String
  generate_outreach : Company → Option String → Except Unit OutreachDraft
  send_email : (to_email subject body from_name : String) → Bool
  send_pipeline_result : Company → GeneratedPage → OutreachDraft → Bool

/-- The signal-field overwrite right after enrichment
(`company.signal_type = signal.type; company.signal_details = signal.details`). -/
def overwriteSignalFields (company : Company) (signal : Signal) : Company :=
  { company with signal_type := signal.type,
                 signal_details := some signal.details }

/-- Step 7 of `_process_signal`: `if send_emails and company.target_contact:`
then `email = company.target_contact.get("email"); if email:` send.  Python
truthiness makes an absent or empty email skip the send.  Returns the
`email_sent` flag and the send events issued. -/
def emailStep (C : Collaborators) (sender_name : String) (send_emails : Bool)
    (company : Company) (outreach : OutreachDraft) : Bool × List Event :=
  if send_emails then
    match company.target_contact with
    | some contact =>
      match contact.email with
      | some email =>
        if email.isEmpty then (false, [])
        else (C.send_email email outreach.email_subject outreach.email_body
                sender_name,
              [Event.sendEmail email])
      | none => (false, [])
    | none => (false, [])
  else (false, [])

/-- `SignalToSitePipeline._process_signal`: the per-signal stage sequence
inside one `try` block; any raising stage aborts the signal with `None`. -/
def processSignalT (C : Collaborators) (sender_name : String)
    (send_emails : Bool) (signal : Signal) :
    Option PipelineResult × List Event :=
  match C.enrich_company signal.company_domain with
  | .error _ => (none, [Event.enrich signal.company_domain])
  | .ok company0 =>
    let company := overwriteSignalFields company0 signal
    match C.research_company company with
    | .error _ => (none, [Event.enrich signal.company_domain, Event.research])
    | .ok company =>
      match C.generate_page company with
      | .error _ =>
        (none, [Event.enrich signal.company_domain, Event.research,
                Event.generatePage])
      | .ok page =>
        match C.deploy_page page with
        | .error _ =>
          (none, [Event.enrich signal.company_domain, Event.research,
                  Event.generatePage, Event.deploy])
        | .ok page_url =>
          let page := { page with deployed_url := some page_url }
          match C.generate_outreach company (some page_url) with
          | .error _ =>
            (none, [Event.enrich signal.company_domain, Event.research,
                    Event.generatePage, Event.deploy, Event.outreach])
          | .ok outreach =>
            let sent := emailStep C sender_name send_emails company outreach
            let notified := C.send_pipeline_result company page outreach
            (some { company := company, page := page, outreach := outreach,
                    page_url := some page_url, email_sent := sent.1,
                    notified := notified },
             [Event.enrich signal.company_domain, Event.research,
              Event.generatePage, Event.deploy, Event.outreach] ++
               sent.2 ++ [Event.notify])

/-- The signal loop of `run`: `for signal in signals: ... if result:
results.append(result)` — successful results are kept in signal order. -/
def processSignals (C : Collaborators) (sender_name : String)
    (send_emails : Bool) : List Signal → List PipelineResult × List Event
  | [] => ([], [])
  | s :: rest =>
    let r := processSignalT C sender_name send_emails s
    let rs := processSignals C sender_name send_emails rest
    (r.1.toList ++ rs.1, r.2 ++ rs.2)

/-- The signal-type argument of the fetch in `run`:
`signal_type or (self.config.signal_types[0] if self.config.signal_types
else None)` (Python truthiness, so an empty string and an empty list both
fall through). -/
def effectiveSignalType (signal_type : Option String)
    (cfg_signal_types : Option (List String)) : Option String :=
  let cfgHead :=
    match cfg_signal_types with
    | some l => l.head?
    | none => none
  match signal_type with
  | some s => if s.isEmpty then cfgHead else some s
  | none => cfgHead

/-- `SignalToSitePipeline.run`, instrumented with the collaborator-call
trace: fetch up to `max_signals` signals, return early on an empty batch,
otherwise process each signal in order. -/
def runTrace (C : Collaborators) (sender_name : String)
    (cfg_signal_types : Option (List String)) (max_signals : Nat)
    (signal_type : Option String) (send_emails : Bool) :
    List PipelineResult × List Event :=
  let eff := effectiveSignalType signal_type cfg_signal_types
  let signals := C.get_signals eff max_signals
  let step := processSignals C sender_name send_emails signals
  (step.1, Event.getSignals eff max_signals :: step.2)

/-- `SignalToSitePipeline.run`: the list of results it returns. -/
def run (C : Collaborators) (sender_name : String)
    (cfg_signal_types : Option (List String)) (max_signals : Nat)
    (signal_type : Option String) (send_emails : Bool) :
    List PipelineResult :=
  (runTrace C sender_name cfg_signal_types max_signals signal_type
    send_emails).1

/-- `SignalToSitePipeline.run_single`: synthesize one ad-hoc signal for the
domain and run `_process_signal` once.  `now` stands for `datetime.now()`. -/
def runSingleT (C : Collaborators) (sender_name : String) (now : Nat)
    (domain : String) (signal_type : String := "custom")
    (signal_details : String := "") (send_email : Bool := false) :
    Option PipelineResult × List Event :=
  let signal : Signal :=
    { id := "manual_" ++ domain, type := signal_type,
      company_name := pyTitle (splitFirstDot domain),
      company_domain := domain, details := signal_details,
      detected_at := now }
  processSignalT C sender_name send_email signal

/-- The demo-mode collaborator bundle (`demo_mode=True`: mock Linkt client,
mock researcher, template-mode page generator and outreach generator, local
deployer, mock email sender and notifier). -/
def demoCollaborators (pg : PageGenerator) (og : OutreachGenerator)
    (year now : Nat) : Collaborators where
  get_signals := MockLinktClient.get_signals now
  enrich_company := fun d => .ok (MockLinktClient.enrich_company d)
  research_company := fun c => .ok (MockCompanyResearcher.research_company c)
  generate_page := fun c => .ok (pg.generate_page year now c)
  deploy_page := fun p => .ok (LocalDeployer.deploy_page p)
  generate_outreach := fun c u => .ok (og.generateOutreachTemplate c u)
  send_email := fun to_email subject body _from => MockEmailSender.send_email to_email subject body
  send_pipeline_result := MockNotifier.send_pipeline_result

/-! ## Concrete fixtures used to exercise the theorems -/

/-- A sample hiring signal. -/
def sigX : Signal :=
  { id := "sig_x", type := "hiring", company_name := "X Co",
    company_domain := "x.io", details := "Posted job: Head of Ops" }

/-- A sample enrichment profile (no target contact). -/
def compX : Company :=
  { name := "X Co", domain := "x.io", signal_type := "enrichment" }

/-- A collaborator bundle where every stage succeeds, the email transport
fails (so the sender swallows the failure and reports `false`), and the
notifier reports success. -/
def pipeOk : Collaborators where
  get_signals := fun _ _ => [sigX]
  enrich_company := fun _ => .ok compX
  research_company := fun c => .ok c
  generate_page := fun c => .ok { company := c, html_content := "h", slug := "x-co" }
  deploy_page := fun _ => .ok "http://u"
  generate_outreach := fun c u =>
    .ok { company := c, email_subject := "subj", email_body := "body",
          landing_page_url := u }
  send_email := fun _ _ _ _ => EmailSender.send_email (Except.error ())
  send_pipeline_result := fun _ _ _ => true

/-- `pipeOk` with a raising enrichment stage. -/
def pipeFailEnrich : Collaborators :=
  { pipeOk with enrich_company := fun _ => .error () }

/-- `pipeOk` with a raising research stage. -/
def pipeFailResearch : Collaborators :=
  { pipeOk with research_company := fun _ => .error () }

/-- `pipeOk` with a raising page-generation stage. -/
def pipeFailPage : Collaborators :=
  { pipeOk with generate_page := fun _ => .error () }

/-- `pipeOk` with a raising deploy stage. -/
def pipeFailDeploy : Collaborators :=
  { pipeOk with deploy_page := fun _ => .error () }

/-- `pipeOk` with a raising outreach stage. -/
def pipeFailOutreach : Collaborators :=
  { pipeOk with generate_outreach := fun _ _ => .error () }

/-- `pipeOk` with a source that yields no signals. -/
def pipeEmptySource : Collaborators :=
  { pipeOk with get_signals := fun _ _ => [] }

/-- The company `pipeOk` threads through the stages of `sigX`. -/
def compX2 : Company := overwriteSignalFields compX sigX

/-- The result `pipeOk` produces for `sigX`. -/
def resultX : PipelineResult :=
  { company := compX2,
    page := { company := compX2, html_content := "h", slug := "x-co",
              deployed_url := some "http://u" },
    outreach := { company := compX2, email_subject := "subj",
                  email_body := "body", landing_page_url := some "http://u" },
    page_url := some "http://u", email_sent := false, notified := true }

/-- A sample page-generator configuration. -/
def pgX : PageGenerator :=
  { your_company_name := "YourCo", your_value_prop := "automation" }

/-- A sample outreach-generator configuration. -/
def ogX : OutreachGenerator :=
  { sender_name := "Sam", sender_title := "Founder",
    your_company_name := "YourCo" }

/-- A company whose name has no ASCII letters or digits. -/
def companyBang : Company :=
  { name := "!!!", domain := "bang.io", signal_type := "custom" }

/-- Whether a company has a target contact whose `email` key holds a truthy
(present, non-empty) address — the condition under which step 7 of
`_process_signal` actually calls the email sender. -/
def hasTargetEmail (c : Company) : Bool :=
  match c.target_contact with
  | some contact =>
    match contact.email with
    | some email => !email.isEmpty
    | none => false
  | none => false

/-- A signal whose domain the mixed bundle fails to enrich. -/
def sigBad : Signal :=
  { id := "sig_bad", type := "hiring", company_name := "Bad Co",
    company_domain := "bad.io", details := "Posted job: CFO" }

/-- `pipeOk` with a source yielding good, bad, good and an enrichment stage
that raises exactly on the bad signal's domain. -/
def pipeMixed : Collaborators :=
  { pipeOk with
    get_signals := fun _ _ => [sigX, sigBad, sigX],
    enrich_company := fun d => if d = "bad.io" then .error () else .ok compX }

/-- The page `pipeOk` generates for `compX2`, before deployment. -/
def pageX0 : GeneratedPage :=
  { company := compX2, html_content := "h", slug := "x-co" }

/-- The outreach draft `pipeOk` generates for `compX2`. -/
def outX : OutreachDraft :=
  { company := compX2, email_subject := "subj", email_body := "body",
    landing_page_url := some "http://u" }

/-! # Theorems -/

/-- The title transform of `_generate_copy_template` never exceeds 50
characters: a string of length below 50 passes through, anything longer is
cut to 47 characters plus a three-character ellipsis. -/
theorem truncTitle_length_le (s : String) : (truncTitle s).length ≤ 50 := by
  unfold truncTitle
  split
  · omega
  · have e : ((⟨s.data.take 47⟩ : String) ++ "...").length
        = (s.data.take 47).length + 3 := by
      show (String.mk (s.data.take 47 ++ "...".data)).length = _
      simp
    rw [e, List.length_take]
    have h1 := Nat.min_le_left 47 s.data.length
    omega

/-- Claim C7: in template-only mode, the mock researcher and the template
outreach generator are deterministic functions of their inputs — two calls
with identical input company (and identical landing-page URL for outreach)
produce identical output. -/
theorem template_mode_determinism :
    (∀ c₁ c₂ : Company, c₁ = c₂ →
      MockCompanyResearcher.research_company c₁ =
        MockCompanyResearcher.research_company c₂) ∧
    (∀ (og : OutreachGenerator) (c₁ c₂ : Company) (u₁ u₂ : Option String),
      c₁ = c₂ → u₁ = u₂ →
      og.generateOutreachTemplate c₁ u₁ = og.generateOutreachTemplate c₂ u₂) :=
  ⟨fun _ _ h => by rw [h], fun _ _ _ _ _ h1 h2 => by rw [h1, h2]⟩

/-- Witness for C7 at a concrete company and URL. -/
theorem template_mode_determinism_witness :
    MockCompanyResearcher.research_company compX =
      MockCompanyResearcher.research_company compX ∧
    ogX.generateOutreachTemplate compX (some "http://u") =
      ogX.generateOutreachTemplate compX (some "http://u") :=
  ⟨template_mode_determinism.1 compX compX rfl,
   template_mode_determinism.2 ogX compX compX (some "http://u")
     (some "http://u") rfl rfl⟩

/-- Claim C8: the signal-field overwrite after enrichment sets exactly
`signal_type` and `signal_details` from the triggering signal (discarding the
enricher's own classification) and leaves every other field of the company
exactly as the enricher returned it. -/
theorem enrich_overwrite_frame (company : Company) (signal : Signal) :
    (overwriteSignalFields company signal).signal_type = signal.type ∧
    (overwriteSignalFields company signal).signal_details = some signal.details ∧
    (overwriteSignalFields company signal).name = company.name ∧
    (overwriteSignalFields company signal).domain = company.domain ∧
    (overwriteSignalFields company signal).description = company.description ∧
    (overwriteSignalFields company signal).industry = company.industry ∧
    (overwriteSignalFields company signal).employee_count = company.employee_count ∧
    (overwriteSignalFields company signal).location = company.location ∧
    (overwriteSignalFields company signal).linkedin_url = company.linkedin_url ∧
    (overwriteSignalFields company signal).value_props = company.value_props ∧
    (overwriteSignalFields company signal).pain_points = company.pain_points ∧
    (overwriteSignalFields company signal).tone = company.tone ∧
    (overwriteSignalFields company signal).brand_colors = company.brand_colors ∧
    (overwriteSignalFields company signal).customers = company.customers ∧
    (overwriteSignalFields company signal).website_content = company.website_content ∧
    (overwriteSignalFields company signal).screenshot_path = company.screenshot_path ∧
    (overwriteSignalFields company signal).founders = company.founders ∧
    (overwriteSignalFields company signal).target_contact = company.target_contact :=
  ⟨rfl, rfl, rfl, rfl, rfl, rfl, rfl, rfl, rfl, rfl, rfl, rfl, rfl, rfl, rfl,
   rfl, rfl, rfl⟩

/-- Claim C9: the template copy generator returns exactly 3 pain-point and 3
value-prop entries — the company lists truncated to their first three
elements and padded with the fixed fillers — and every entry title is at
most 50 characters. -/
theorem copy_template_three_entries (pg : PageGenerator) (company : Company) :
    (pg.generateCopyTemplate company).pain_points =
      ((company.pain_points.take 3).map (fun pain =>
        { title := truncTitle pain,
          description :=
            "We\x27ve seen this challenge at companies your size. Here\x27s how we help." })) ++
      List.replicate (3 - (company.pain_points.take 3).length) painFiller ∧
    (pg.generateCopyTemplate company).value_props =
      ((company.value_props.take 3).map (fun value =>
        { title := truncTitle value,
          description := "Proven results with teams like yours." })) ++
      List.replicate (3 - (company.value_props.take 3).length) valueFiller ∧
    (pg.generateCopyTemplate company).pain_points.length = 3 ∧
    (pg.generateCopyTemplate company).value_props.length = 3 ∧
    (∀ e ∈ (pg.generateCopyTemplate company).pain_points, e.title.length ≤ 50) ∧
    (∀ e ∈ (pg.generateCopyTemplate company).value_props, e.title.length ≤ 50) := by
  refine ⟨?_, ?_, ?_, ?_, ?_, ?_⟩
  · simp [PageGenerator.generateCopyTemplate]
  · simp [PageGenerator.generateCopyTemplate]
  · simp only [PageGenerator.generateCopyTemplate, List.length_append,
      List.length_replicate, List.length_map, List.length_take]
    omega
  · simp only [PageGenerator.generateCopyTemplate, List.length_append,
      List.length_replicate, List.length_map, List.length_take]
    omega
  · intro e he
    simp only [PageGenerator.generateCopyTemplate, List.mem_append,
      List.mem_map] at he
    rcases he with ⟨p, _, rfl⟩ | hrep
    · exact truncTitle_length_le p
    · rw [List.eq_of_mem_replicate hrep]
      decide
  · intro e he
    simp only [PageGenerator.generateCopyTemplate, List.mem_append,
      List.mem_map] at he
    rcases he with ⟨p, _, rfl⟩ | hrep
    · exact truncTitle_length_le p
    · rw [List.eq_of_mem_replicate hrep]
      decide

/-- Witness for C9 at a concrete company. -/
theorem copy_template_three_entries_witness :
    (pgX.generateCopyTemplate compX2).pain_points.length = 3 ∧
    (pgX.generateCopyTemplate compX2).value_props.length = 3 ∧
    painFiller.title.length ≤ 50 := by
  exact ⟨(copy_template_three_entries pgX compX2).2.2.1,
         (copy_template_three_entries pgX compX2).2.2.2.1,
         (copy_template_three_entries pgX compX2).2.2.2.2.1 painFiller
           (by decide)⟩

/-- Claim C10: a company name with no ASCII letters or digits produces the
empty slug, and `generate_page` then yields a `GeneratedPage` whose slug is
empty. -/
theorem empty_slug_edge_case :
    generateSlug "!!!" = "" ∧
    (pgX.generate_page 2025 0 companyBang).slug = "" := by
  constructor <;> rfl

/-- Characters of a collapsed list: the replacement character, or a
non-matching character of the input. -/
theorem mem_collapseRuns {p : Char → Bool} {rep : Char} :
    ∀ {l : List Char} {prev : Bool} {c : Char},
      c ∈ collapseRuns p rep l prev → c = rep ∨ (c ∈ l ∧ p c = false) := by
  intro l
  induction l with
  | nil => intro prev c h; simp [collapseRuns] at h
  | cons a t ih =>
    intro prev c h
    by_cases hpa : p a
    · cases prev <;> simp only [collapseRuns, hpa, if_true] at h
      · rcases List.mem_cons.mp h with hca | h2
        · exact Or.inl hca
        · rcases ih h2 with h3 | ⟨h3, h4⟩
          · exact Or.inl h3
          · exact Or.inr ⟨List.mem_cons_of_mem _ h3, h4⟩
      · rcases ih h with h3 | ⟨h3, h4⟩
        · exact Or.inl h3
        · exact Or.inr ⟨List.mem_cons_of_mem _ h3, h4⟩
    · simp only [collapseRuns, hpa, if_false] at h
      rcases List.mem_cons.mp h with hca | h2
      · subst hca
        exact Or.inr ⟨List.mem_cons_self _ _, Bool.eq_false_iff.mpr hpa⟩
      · rcases ih h2 with h3 | ⟨h3, h4⟩
        · exact Or.inl h3
        · exact Or.inr ⟨List.mem_cons_of_mem _ h3, h4⟩

/-- Collapsing hyphen runs with the in-run flag set never emits a leading
hyphen. -/
theorem head_collapseDash :
    ∀ (l : List Char) {c : Char},
      (collapseRuns (fun c => c = '-') '-' l true).head? = some c → c ≠ '-' := by
  intro l
  induction l with
  | nil => intro c h; simp [collapseRuns] at h
  | cons a t ih =>
    intro c h
    by_cases ha : a = '-'
    · simp only [collapseRuns, ha] at h
      simp at h
      exact ih h
    · simp [collapseRuns, ha] at h
      exact h ▸ ha

/-- Collapsing hyphen runs leaves no two adjacent hyphens. -/
theorem chain_collapseDash :
    ∀ (l : List Char) (prev : Bool),
      List.Chain' (fun a b => ¬(a = '-' ∧ b = '-'))
        (collapseRuns (fun c => c = '-') '-' l prev) := by
  intro l
  induction l with
  | nil => intro prev; simp [collapseRuns]
  | cons a t ih =>
    intro prev
    by_cases ha : a = '-'
    · cases prev <;> simp [collapseRuns, ha, -not_and]
      · refine List.chain'_cons'.mpr ⟨?_, ih true⟩
        intro y hy
        rw [Option.mem_def] at hy
        have hne := head_collapseDash t hy
        exact fun hc => hne hc.2
      · exact ih true
    · simp [collapseRuns, ha, -not_and]
      refine List.chain'_cons'.mpr ⟨?_, ih false⟩
      intro y _
      exact fun hc => ha hc.1


/-- Stripping only removes characters. -/
theorem mem_pyStrip {p : Char → Bool} {l : List Char} {c : Char}
    (h : c ∈ pyStrip p l) : c ∈ l := by
  unfold pyStrip at h
  rw [List.mem_reverse] at h
  have h2 := (List.dropWhile_sublist p).mem h
  rw [List.mem_reverse] at h2
  exact (List.dropWhile_sublist p).mem h2

/-- Stripping both ends preserves a symmetric adjacency invariant. -/
theorem chain_pyStrip {R : Char → Char → Prop}
    (hsymm : ∀ a b, R a b → R b a) (p : Char → Bool) (l : List Char)
    (h : List.Chain' R l) : List.Chain' R (pyStrip p l) := by
  unfold pyStrip
  have h1 := h.suffix (List.dropWhile_suffix p)
  have h2 : List.Chain' R (l.dropWhile p).reverse :=
    List.chain'_reverse.mpr (h1.imp (fun a b hr => hsymm a b hr))
  have h3 := h2.suffix (List.dropWhile_suffix p)
  exact List.chain'_reverse.mpr (h3.imp (fun a b hr => hsymm a b hr))

/-- The last character after stripping does not match the strip class. -/
theorem last_pyStrip {p : Char → Bool} {l : List Char} {c : Char}
    (hc : (pyStrip p l).getLast? = some c) : p c = false := by
  unfold pyStrip at hc
  rw [List.getLast?_reverse] at hc
  have h := List.head?_dropWhile_not p (l.dropWhile p).reverse
  rw [hc] at h
  exact h

/-- The first character after stripping does not match the strip class. -/
theorem head_pyStrip {p : Char → Bool} {l : List Char} {c : Char}
    (hc : (pyStrip p l).head? = some c) : p c = false := by
  unfold pyStrip at hc
  rw [List.head?_reverse] at hc
  have hxne : (l.dropWhile p).reverse.dropWhile p ≠ [] := by
    intro he
    rw [he] at hc
    simp at hc
  rw [List.getLast?_eq_getLast _ hxne] at hc
  have heq := List.IsSuffix.getLast (List.dropWhile_suffix p) hxne
  have hmne := (List.dropWhile_suffix p).ne_nil hxne
  have h2 : (l.dropWhile p).reverse.getLast? =
      some ((l.dropWhile p).reverse.getLast hmne) :=
    List.getLast?_eq_getLast _ hmne
  rw [List.getLast?_reverse] at h2
  have h3 := List.head?_dropWhile_not p l
  rw [h2] at h3
  injection hc with hc2
  rw [← hc2, heq]
  exact h3


/-- Claim C4: `_generate_slug` is a pure function of the company name, and
for every input the slug contains only lowercase ASCII letters, digits and
hyphens, with no leading hyphen, no trailing hyphen, and no two consecutive
hyphens. -/
theorem slug_pure_and_format (name : String) :
    (∀ other : String, name = other → generateSlug name = generateSlug other) ∧
    (∀ c ∈ (generateSlug name).data, isSlugAlnum c = true ∨ c = '-') ∧
    (generateSlug name).data.head? ≠ some '-' ∧
    (generateSlug name).data.getLast? ≠ some '-' ∧
    List.Chain' (fun a b => ¬(a = '-' ∧ b = '-')) (generateSlug name).data := by
  have hdata : (generateSlug name).data =
      pyStrip (fun c => c = '-')
        (collapseRuns (fun c => c = '-') '-'
          (collapseRuns (fun c => isPySpace c || c = '_') '-'
            ((name.data.map Char.toLower).filter
              (fun c => isSlugAlnum c || isPySpace c || c = '-')) false) false) := rfl
  refine ⟨fun other h => by rw [h], ?_, ?_, ?_, ?_⟩
  · intro c hc
    rw [hdata] at hc
    have h4 := mem_pyStrip hc
    rcases mem_collapseRuns h4 with h | ⟨h3, _⟩
    · exact Or.inr h
    · rcases mem_collapseRuns h3 with h | ⟨h2, hnsp⟩
      · exact Or.inr h
      · have hin := (List.mem_filter.mp h2).2
        simp only [Bool.or_eq_true, decide_eq_true_eq] at hin
        simp only [Bool.or_eq_false_iff] at hnsp
        rcases hin with (h | h) | h
        · exact Or.inl h
        · rw [hnsp.1] at h
          simp at h
        · exact Or.inr h
  · intro h
    rw [hdata] at h
    have := head_pyStrip h
    simp at this
  · intro h
    rw [hdata] at h
    have := last_pyStrip h
    simp at this
  · rw [hdata]
    exact chain_pyStrip (fun a b h hc => h ⟨hc.2, hc.1⟩) _ _ (chain_collapseDash _ _)

/-- Witness for C4 at the demo company name. -/
theorem slug_pure_and_format_witness :
    generateSlug "TechStartup Inc" = generateSlug "TechStartup Inc" ∧
    (isSlugAlnum 't' = true ∨ 't' = '-') :=
  ⟨(slug_pure_and_format "TechStartup Inc").1 _ rfl,
   (slug_pure_and_format "TechStartup Inc").2.1 't' (by decide)⟩

/-- The signal loop keeps exactly the successful per-signal results, in
order. -/
theorem processSignals_fst (C : Collaborators) (sn : String) (se : Bool) :
    ∀ l : List Signal, (processSignals C sn se l).1 =
      l.filterMap (fun s => (processSignalT C sn se s).1) := by
  intro l
  induction l with
  | nil => rfl
  | cons s t ih =>
    simp only [processSignals, List.filterMap_cons]
    cases h : (processSignalT C sn se s).1 <;> simp [h, ih]

/-- A raising enrichment stage yields no result for the signal. -/
theorem processSignalT_enrich_error (C : Collaborators) (sn : String)
    (se : Bool) (s : Signal) (h : C.enrich_company s.company_domain = .error ()) :
    (processSignalT C sn se s).1 = none := by
  simp [processSignalT, h]

/-- `filterMap` over a list on which the function always succeeds keeps
every element. -/
theorem filterMap_length_of_isSome {α β : Type} (f : α → Option β) :
    ∀ l : List α, (∀ a ∈ l, (f a).isSome) →
      (l.filterMap f).length = l.length := by
  intro l
  induction l with
  | nil => intro _; rfl
  | cons a t ih =>
    intro h
    have ha := h a (List.mem_cons_self a t)
    rcases Option.isSome_iff_exists.mp ha with ⟨b, hb⟩
    simp [List.filterMap_cons, hb, ih (fun x hx => h x (List.mem_cons_of_mem a hx))]

/-- Claim C1: if exactly one signal of the fetched batch has a
deterministically raising enrichment stage and every other signal completes
all stages, `run` returns exactly N-1 results, one per non-failing signal,
in the order the signals were received; the failing signal contributes no
entry and does not abort the run. -/
theorem run_enrichment_failure_containment
    (C : Collaborators) (sender_name : String)
    (cfg_signal_types : Option (List String)) (max_signals : Nat)
    (signal_type : Option String) (send_emails : Bool)
    (pre post : List Signal) (bad : Signal)
    (hfetch : C.get_signals (effectiveSignalType signal_type cfg_signal_types)
        max_signals = pre ++ bad :: post)
    (hbad : C.enrich_company bad.company_domain = .error ())
    (hok : ∀ s ∈ pre ++ post,
      ((processSignalT C sender_name send_emails s).1).isSome) :
    run C sender_name cfg_signal_types max_signals signal_type send_emails =
      (pre ++ post).filterMap
        (fun s => (processSignalT C sender_name send_emails s).1) ∧
    (run C sender_name cfg_signal_types max_signals signal_type
        send_emails).length = pre.length + post.length := by
  have hrun : run C sender_name cfg_signal_types max_signals signal_type
      send_emails =
      (pre ++ post).filterMap
        (fun s => (processSignalT C sender_name send_emails s).1) := by
    unfold run runTrace
    simp only [hfetch, processSignals_fst]
    rw [List.filterMap_append, List.filterMap_cons,
      processSignalT_enrich_error C sender_name send_emails bad hbad,
      List.filterMap_append]
  refine ⟨hrun, ?_⟩
  rw [hrun, filterMap_length_of_isSome _ _ hok, List.length_append]


/-- When the email sender is the SMTP sender with a failing transport, the
send step reports `false`. -/
theorem emailStep_fst_of_sender_fails (C : Collaborators) (sn : String)
    (se : Bool) (c : Company) (o : OutreachDraft)
    (hsend : ∀ a b c' d, C.send_email a b c' d =
      EmailSender.send_email (Except.error ())) :
    (emailStep C sn se c o).1 = false := by
  unfold emailStep
  cases se
  · rfl
  · cases hc : c.target_contact with
    | none => rfl
    | some ct =>
      cases he : ct.email with
      | none => simp [he]
      | some em =>
        by_cases hemp : em.isEmpty <;>
          simp [he, hemp, hsend, EmailSender.send_email]

/-- Claim C2: a raising stage among enrich, research, page generation,
deploy and outreach aborts the signal with no partial result; a failing
email send (stage 6) is swallowed inside `EmailSender.send_email` and yields
a complete result with `email_sent = false`; and the notifier boolean of
stage 7 is stored as-is in the result. -/
theorem stage_failure_severity (C : Collaborators) (sn : String) (se : Bool)
    (s : Signal) :
    (C.enrich_company s.company_domain = .error () →
      (processSignalT C sn se s).1 = none) ∧
    (∀ c0, C.enrich_company s.company_domain = .ok c0 →
      C.research_company (overwriteSignalFields c0 s) = .error () →
      (processSignalT C sn se s).1 = none) ∧
    (∀ c0 c1, C.enrich_company s.company_domain = .ok c0 →
      C.research_company (overwriteSignalFields c0 s) = .ok c1 →
      C.generate_page c1 = .error () →
      (processSignalT C sn se s).1 = none) ∧
    (∀ c0 c1 p, C.enrich_company s.company_domain = .ok c0 →
      C.research_company (overwriteSignalFields c0 s) = .ok c1 →
      C.generate_page c1 = .ok p →
      C.deploy_page p = .error () →
      (processSignalT C sn se s).1 = none) ∧
    (∀ c0 c1 p u, C.enrich_company s.company_domain = .ok c0 →
      C.research_company (overwriteSignalFields c0 s) = .ok c1 →
      C.generate_page c1 = .ok p →
      C.deploy_page p = .ok u →
      C.generate_outreach c1 (some u) = .error () →
      (processSignalT C sn se s).1 = none) ∧
    (∀ c0 c1 p u o, C.enrich_company s.company_domain = .ok c0 →
      C.research_company (overwriteSignalFields c0 s) = .ok c1 →
      C.generate_page c1 = .ok p →
      C.deploy_page p = .ok u →
      C.generate_outreach c1 (some u) = .ok o →
      (∀ a b c' d, C.send_email a b c' d =
        EmailSender.send_email (Except.error ())) →
      ∃ r, (processSignalT C sn se s).1 = some r ∧ r.email_sent = false) ∧
    (∀ c0 c1 p u o, C.enrich_company s.company_domain = .ok c0 →
      C.research_company (overwriteSignalFields c0 s) = .ok c1 →
      C.generate_page c1 = .ok p →
      C.deploy_page p = .ok u →
      C.generate_outreach c1 (some u) = .ok o →
      ∃ r, (processSignalT C sn se s).1 = some r ∧
        r.notified = C.send_pipeline_result c1
          { p with deployed_url := some u } o) := by
  refine ⟨?_, ?_, ?_, ?_, ?_, ?_, ?_⟩
  · intro h
    simp [processSignalT, h]
  · intro c0 h1 h2
    simp [processSignalT, h1, h2]
  · intro c0 c1 h1 h2 h3
    simp [processSignalT, h1, h2, h3]
  · intro c0 c1 p h1 h2 h3 h4
    simp [processSignalT, h1, h2, h3, h4]
  · intro c0 c1 p u h1 h2 h3 h4 h5
    simp [processSignalT, h1, h2, h3, h4, h5]
  · intro c0 c1 p u o h1 h2 h3 h4 h5 hsend
    have hmain : (processSignalT C sn se s).1 =
        some { company := c1, page := { p with deployed_url := some u },
               outreach := o, page_url := some u,
               email_sent := (emailStep C sn se c1 o).1,
               notified := C.send_pipeline_result c1
                 { p with deployed_url := some u } o } := by
      simp [processSignalT, h1, h2, h3, h4, h5]
    exact ⟨_, hmain, emailStep_fst_of_sender_fails C sn se c1 o hsend⟩
  · intro c0 c1 p u o h1 h2 h3 h4 h5
    have hmain : (processSignalT C sn se s).1 =
        some { company := c1, page := { p with deployed_url := some u },
               outreach := o, page_url := some u,
               email_sent := (emailStep C sn se c1 o).1,
               notified := C.send_pipeline_result c1
                 { p with deployed_url := some u } o } := by
      simp [processSignalT, h1, h2, h3, h4, h5]
    exact ⟨_, hmain, rfl⟩


/-- With `send_emails = False` the send step does nothing. -/
theorem emailStep_of_se_false (C : Collaborators) (sn : String) (c : Company)
    (o : OutreachDraft) : emailStep C sn false c o = (false, []) := rfl

/-- Without a truthy target-contact email the send step does nothing. -/
theorem emailStep_of_no_target (C : Collaborators) (sn : String) (se : Bool)
    (c : Company) (o : OutreachDraft) (h : hasTargetEmail c = false) :
    emailStep C sn se c o = (false, []) := by
  unfold emailStep
  unfold hasTargetEmail at h
  cases se
  · rfl
  · cases hc : c.target_contact with
    | none => rfl
    | some ct =>
      cases he : ct.email with
      | none => simp [he]
      | some em =>
        rw [hc] at h
        simp only [he] at h
        simp at h
        simp [he, h]

/-- A signal processed with `send_emails = False` never reports a sent
email. -/
theorem processSignalT_email_false (C : Collaborators) (sn : String)
    (s : Signal) :
    ∀ r, (processSignalT C sn false s).1 = some r → r.email_sent = false := by
  intro r h
  rcases hE : C.enrich_company s.company_domain with e | c0
  · simp [processSignalT, hE] at h
  · rcases hR : C.research_company (overwriteSignalFields c0 s) with e | c1
    · simp [processSignalT, hE, hR] at h
    · rcases hG : C.generate_page c1 with e | p
      · simp [processSignalT, hE, hR, hG] at h
      · rcases hD : C.deploy_page p with e | u
        · simp [processSignalT, hE, hR, hG, hD] at h
        · rcases hO : C.generate_outreach c1 (some u) with e | o
          · simp [processSignalT, hE, hR, hG, hD, hO] at h
          · have hmain : (processSignalT C sn false s).1 =
                some { company := c1, page := { p with deployed_url := some u },
                       outreach := o, page_url := some u,
                       email_sent := (emailStep C sn false c1 o).1,
                       notified := C.send_pipeline_result c1
                         { p with deployed_url := some u } o } := by
              simp [processSignalT, hE, hR, hG, hD, hO]
            rw [hmain] at h
            simp only [Option.some.injEq] at h
            subst h
            rfl


/-- If the processed company lacks a truthy contact email, the result
reports no sent email and no send event is issued. -/
theorem processSignalT_gating (C : Collaborators) (sn : String) (s : Signal)
    (h : ∀ r, (processSignalT C sn true s).1 = some r →
      hasTargetEmail r.company = false) :
    (∀ r, (processSignalT C sn true s).1 = some r → r.email_sent = false) ∧
    (∀ a, Event.sendEmail a ∉ (processSignalT C sn true s).2) := by
  rcases hE : C.enrich_company s.company_domain with e | c0
  · constructor
    · intro r hr
      simp [processSignalT, hE] at hr
    · intro a
      simp [processSignalT, hE]
  · rcases hR : C.research_company (overwriteSignalFields c0 s) with e | c1
    · constructor
      · intro r hr
        simp [processSignalT, hE, hR] at hr
      · intro a
        simp [processSignalT, hE, hR]
    · rcases hG : C.generate_page c1 with e | p
      · constructor
        · intro r hr
          simp [processSignalT, hE, hR, hG] at hr
        · intro a
          simp [processSignalT, hE, hR, hG]
      · rcases hD : C.deploy_page p with e | u
        · constructor
          · intro r hr
            simp [processSignalT, hE, hR, hG, hD] at hr
          · intro a
            simp [processSignalT, hE, hR, hG, hD]
        · rcases hO : C.generate_outreach c1 (some u) with e | o
          · constructor
            · intro r hr
              simp [processSignalT, hE, hR, hG, hD, hO] at hr
            · intro a
              simp [processSignalT, hE, hR, hG, hD, hO]
          · have hmain : processSignalT C sn true s =
                (some { company := c1, page := { p with deployed_url := some u },
                        outreach := o, page_url := some u,
                        email_sent := (emailStep C sn true c1 o).1,
                        notified := C.send_pipeline_result c1
                          { p with deployed_url := some u } o },
                 [Event.enrich s.company_domain, Event.research,
                  Event.generatePage, Event.deploy, Event.outreach] ++
                   (emailStep C sn true c1 o).2 ++ [Event.notify]) := by
              simp [processSignalT, hE, hR, hG, hD, hO]
            have hte : hasTargetEmail c1 = false := by
              have := h _ (by rw [hmain])
              exact this
            have hstep := emailStep_of_no_target C sn true c1 o hte
            constructor
            · intro r hr
              rw [hmain] at hr
              simp only [Option.some.injEq] at hr
              subst hr
              simp [hstep]
            · intro a
              rw [hmain]
              simp [hstep]


/-- Lift of the per-signal gating property over the signal loop. -/
theorem processSignals_gating (C : Collaborators) (sn : String) :
    ∀ l : List Signal,
      (∀ r ∈ (processSignals C sn true l).1, hasTargetEmail r.company = false) →
      (∀ r ∈ (processSignals C sn true l).1, r.email_sent = false) ∧
      (∀ a, Event.sendEmail a ∉ (processSignals C sn true l).2) := by
  intro l
  induction l with
  | nil =>
    intro _
    exact ⟨fun r hr => absurd hr (by simp [processSignals]),
           fun a => by simp [processSignals]⟩
  | cons s t ih =>
    intro h
    have hhead : ∀ r, (processSignalT C sn true s).1 = some r →
        hasTargetEmail r.company = false := by
      intro r hr
      apply h
      simp [processSignals, hr]
    have htail : ∀ r ∈ (processSignals C sn true t).1,
        hasTargetEmail r.company = false := by
      intro r hr
      apply h
      simp only [processSignals, List.mem_append]
      exact Or.inr hr
    obtain ⟨h1, h2⟩ := processSignalT_gating C sn s hhead
    obtain ⟨ih1, ih2⟩ := ih htail
    constructor
    · intro r hr
      simp only [processSignals, List.mem_append] at hr
      rcases hr with hr | hr
      · rcases hmem : (processSignalT C sn true s).1 with _ | r0
        · rw [hmem] at hr
          simp at hr
        · rw [hmem] at hr
          simp at hr
          subst hr
          exact h1 _ hmem
      · exact ih1 r hr
    · intro a
      simp only [processSignals, List.mem_append, not_or]
      exact ⟨h2 a, ih2 a⟩

/-- Claim C3: with `send_emails = false` every result has
`email_sent = false` regardless of target contacts; with
`send_emails = true` but no processed company holding a target-contact
email, every result still has `email_sent = false` and the email sender is
never invoked. -/
theorem email_gating (C : Collaborators) (sn : String)
    (cfg_signal_types : Option (List String)) (max_signals : Nat)
    (signal_type : Option String) :
    (∀ r ∈ run C sn cfg_signal_types max_signals signal_type false,
      r.email_sent = false) ∧
    ((∀ r ∈ run C sn cfg_signal_types max_signals signal_type true,
        hasTargetEmail r.company = false) →
      (∀ r ∈ run C sn cfg_signal_types max_signals signal_type true,
        r.email_sent = false) ∧
      (∀ a, Event.sendEmail a ∉
        (runTrace C sn cfg_signal_types max_signals signal_type true).2)) := by
  constructor
  · intro r hr
    simp only [run, runTrace] at hr
    rw [processSignals_fst] at hr
    rcases List.mem_filterMap.mp hr with ⟨s, _, hs⟩
    exact processSignalT_email_false C sn s r hs
  · intro h
    have h' : ∀ r ∈ (processSignals C sn true
        (C.get_signals (effectiveSignalType signal_type cfg_signal_types)
          max_signals)).1, hasTargetEmail r.company = false := h
    obtain ⟨g1, g2⟩ := processSignals_gating C sn _ h'
    constructor
    · intro r hr
      exact g1 r hr
    · intro a
      simp only [runTrace, List.mem_cons, not_or]
      exact ⟨by simp, g2 a⟩

/-- Claim C5: a source returning zero signals makes `run` return an empty
result list without error, and the only collaborator call of the whole run
is the signal fetch itself — no downstream collaborator is invoked. -/
theorem empty_source_no_collaborator_calls (C : Collaborators) (sn : String)
    (cfg_signal_types : Option (List String)) (max_signals : Nat)
    (signal_type : Option String) (send_emails : Bool)
    (h : C.get_signals (effectiveSignalType signal_type cfg_signal_types)
      max_signals = []) :
    runTrace C sn cfg_signal_types max_signals signal_type send_emails =
      ([], [Event.getSignals
        (effectiveSignalType signal_type cfg_signal_types) max_signals]) := by
  simp only [runTrace]
  rw [h]
  rfl

/-- Claim C6: for a domain unknown to the mock enricher, `enrich_company`
derives the company name from the domain (part before the first dot, hyphens
to spaces, title case) — "unknown-co.xyz" yields "Unknown Co" — and
`run_single` on such a domain in demo mode still produces a complete
`PipelineResult`. -/
theorem unknown_domain_enrichment_fallback
    (d : String) (pg : PageGenerator) (og : OutreachGenerator)
    (sn : String) (year now : Nat)
    (hunk : mockEnrichData.lookup d = none) :
    (MockLinktClient.enrich_company d).name =
      pyTitle (pyReplaceChar '-' ' ' (splitFirstDot d)) ∧
    (MockLinktClient.enrich_company "unknown-co.xyz").name = "Unknown Co" ∧
    ((runSingleT (demoCollaborators pg og year now) sn now d "custom" ""
      false).1).isSome = true := by
  refine ⟨?_, ?_, ?_⟩
  · simp [MockLinktClient.enrich_company, hunk]
  · rfl
  · rfl

/-- Witness for C6 at the demo domain "unknown-co.xyz". -/
theorem unknown_domain_enrichment_fallback_witness :
    (MockLinktClient.enrich_company "unknown-co.xyz").name =
      pyTitle (pyReplaceChar '-' ' ' (splitFirstDot "unknown-co.xyz")) ∧
    (MockLinktClient.enrich_company "unknown-co.xyz").name = "Unknown Co" ∧
    ((runSingleT (demoCollaborators pgX ogX 2025 0) "Sam" 0 "unknown-co.xyz"
      "custom" "" false).1).isSome = true :=
  unknown_domain_enrichment_fallback "unknown-co.xyz" pgX ogX "Sam" 2025 0 rfl

/-- Witness for C1: a batch good, bad, good yields the two good results. -/
theorem run_enrichment_failure_containment_witness :
    run pipeMixed "S" none 10 none false =
      ([sigX] ++ [sigX]).filterMap
        (fun s => (processSignalT pipeMixed "S" false s).1) ∧
    (run pipeMixed "S" none 10 none false).length =
      [sigX].length + [sigX].length :=
  run_enrichment_failure_containment pipeMixed "S" none 10 none false
    [sigX] [sigX] sigBad rfl rfl (by decide)

/-- Witness for C5 with a concrete empty source. -/
theorem empty_source_no_collaborator_calls_witness :
    runTrace pipeEmptySource "S" none 10 none false =
      ([], [Event.getSignals (effectiveSignalType none none) 10]) :=
  empty_source_no_collaborator_calls pipeEmptySource "S" none 10 none false rfl

/-- Witness for C3 on the concrete contact-free bundle. -/
theorem email_gating_witness :
    resultX.email_sent = false ∧
    Event.sendEmail "a@b.io" ∉ (runTrace pipeOk "S" none 10 none true).2 :=
  ⟨(email_gating pipeOk "S" none 10 none).1 resultX (by decide),
   ((email_gating pipeOk "S" none 10 none).2 (by decide)).2 "a@b.io"⟩

/-- Witness for C2: each stage-failure bundle evaluated at the sample
signal. -/
theorem stage_failure_severity_witness :
    (processSignalT pipeFailEnrich "S" true sigX).1 = none ∧
    (processSignalT pipeFailResearch "S" true sigX).1 = none ∧
    (processSignalT pipeFailPage "S" true sigX).1 = none ∧
    (processSignalT pipeFailDeploy "S" true sigX).1 = none ∧
    (processSignalT pipeFailOutreach "S" true sigX).1 = none ∧
    (∃ r, (processSignalT pipeOk "S" true sigX).1 = some r ∧
      r.email_sent = false) ∧
    (∃ r, (processSignalT pipeOk "S" true sigX).1 = some r ∧
      r.notified = pipeOk.send_pipeline_result compX2
        { pageX0 with deployed_url := some "http://u" } outX) :=
  ⟨(stage_failure_severity pipeFailEnrich "S" true sigX).1 rfl,
   (stage_failure_severity pipeFailResearch "S" true sigX).2.1 compX rfl rfl,
   (stage_failure_severity pipeFailPage "S" true sigX).2.2.1
     compX compX2 rfl rfl rfl,
   (stage_failure_severity pipeFailDeploy "S" true sigX).2.2.2.1
     compX compX2 pageX0 rfl rfl rfl rfl,
   (stage_failure_severity pipeFailOutreach "S" true sigX).2.2.2.2.1
     compX compX2 pageX0 "http://u" rfl rfl rfl rfl rfl,
   (stage_failure_severity pipeOk "S" true sigX).2.2.2.2.2.1
     compX compX2 pageX0 "http://u" outX rfl rfl rfl rfl rfl
     (fun _ _ _ _ => rfl),
   (stage_failure_severity pipeOk "S" true sigX).2.2.2.2.2.2
     compX compX2 pageX0 "http://u" outX rfl rfl rfl rfl rfl⟩

end SignalToSite
